import Mathlib

/-!
Verification of the ggrc-core excerpt: the scope-objects schema migration
(`20191009_9a38b1d92f3e_extend_tables_for_scope_objects.py`), the assessment
model hooks (`ggrc/models/hooks/assessment.py`) and the CSV import helper
(`ggrc/converters/import_helper.py`), shallowly embedded in Lean.
-/

namespace Migration

/-- SQL column types used by the migration (`sa.Integer`, `sa.String(255)`). -/
inductive SqlType
  | integer
  | string (length : Nat)
deriving DecidableEq

/-- Schema operations emitted through the Alembic `op` interface.
`add_column` records table, column name, type, `autoincrement` keyword (absent
for `created_by_id`) and nullability; `create_unique_constraint` records the
constraint name, table and column list. -/
inductive MigOp
  | add_column (table : String) (column : String) (ty : SqlType)
      (autoincrement : Option Bool) (nullable : Bool)
  | create_unique_constraint (cname : String) (table : String)
      (columns : List String)
deriving DecidableEq

/-- The `scope_tables_names` set from the migration. Python iterates a `set`
in an unspecified order; we fix the order in which the literal is written,
which is irrelevant to the per-table properties proved below. -/
def scope_tables_names : List String :=
  [ "access_groups"
  , "account_balances"
  , "data_assets"
  , "facilities"
  , "markets"
  , "org_groups"
  , "vendors"
  , "products"
  , "projects"
  , "systems"
  , "key_reports"
  , "product_groups"
  , "metrics"
  , "technology_environments"
  ]

/-- Body of the `for name in scope_tables_names` loop in `upgrade`. -/
def ops_for_table (name : String) : List MigOp :=
  [ .add_column name "external_id" .integer (some false) true
  , .add_column name "external_slug" (.string 255) (some false) true
  , .add_column name "created_by_id" .integer none true
  , .create_unique_constraint "uq_external_id" name ["external_id"]
  , .create_unique_constraint "uq_external_slug" name ["external_slug"]
  ]

/-- The migration's `upgrade` function, as the list of schema operations it
emits. -/
def upgrade : List MigOp :=
  (scope_tables_names.map ops_for_table).flatten

/-- Does this operation add a column to table `t`? -/
def MigOp.isAddColumnOn (t : String) : MigOp → Bool
  | .add_column tbl _ _ _ _ => tbl = t
  | _ => false

/-- Does this operation create a unique constraint on table `t`? -/
def MigOp.isUniqueOn (t : String) : MigOp → Bool
  | .create_unique_constraint _ tbl _ => tbl = t
  | _ => false

/-- A database schema: a list of tables with their column names. -/
def Schema : Type := List (String × List String)

/-- The migration's `downgrade` function: it raises `NotImplementedError`
before touching the schema, so for any database state it produces an error
and no schema change. -/
def downgrade (_s : Schema) : Except String Schema :=
  .error "Downgrade is not supported"

end Migration

namespace Hooks

/-- A `Person` row as used by the hooks (only its id is read). -/
structure Person where
  id : Nat
deriving DecidableEq

/-- An entry of a snapshot revision's `access_control_list` content:
a dict with `ac_role_id` and `person_id` keys. -/
structure AclEntry where
  ac_role_id : Nat
  person_id : Nat
deriving DecidableEq

/-- The content dict of a snapshot's revision: the keys read by the hooks
(`title`, `test_plan` — absent modelled as the default `""` used by
`snapshot_rev_content.get("test_plan", "")` — and `access_control_list`). -/
structure RevContent where
  title : String
  test_plan : String
  access_control_list : List AclEntry
deriving DecidableEq

/-- One `(person, acl)` pair of `audit.access_control_list`. -/
structure AuditAclPair where
  person : Person
  ac_role_id : Nat
deriving DecidableEq

/-- An `Audit` row: the fields read by the hooks. -/
structure Audit where
  id : Nat
  title : String
  access_control_list : List AuditAclPair
deriving DecidableEq

/-- A `Snapshot` row: the fields read by the hooks. -/
structure Snapshot where
  id : Nat
  child_type : String
deriving DecidableEq

/-- A template custom attribute definition, i.e. the part of the
`to_dict()` stub of a CAD that `clone_cad_stub` copies unchanged. -/
structure CadDef where
  title : String
  attribute_type : String
  mandatory : Bool
  helptext : String
deriving DecidableEq

/-- A CAD stub placed in `flask.g.cads_to_batch_insert`: the copied template
CAD plus the fields `clone_cad_stub` overwrites. -/
structure CadStub where
  cad : CadDef
  definition_type : String
  definition_id : Nat
  created_at : Nat
  updated_at : Nat
  modified_by_id : Nat
  id : Option Nat
deriving DecidableEq

/-- An ACP stub placed in `flask.g.acps_to_batch_insert` by
`add_person_to_acl`. -/
structure AcpStub where
  id : Option Nat
  person_id : Nat
  ac_list_id : Nat
  created_at : Nat
  updated_at : Nat
  modified_by_id : Nat
deriving DecidableEq

/-- A value of the template's `default_people` dict: either a literal list of
person ids or the name of a role to resolve. -/
inductive TemplateRole
  | people (ids : List Nat)
  | role (name : String)
deriving DecidableEq

/-- Python truthiness of a `default_people` value (`[]` and `""` are falsy). -/
def TemplateRole.truthy : TemplateRole → Bool
  | .people ids => !ids.isEmpty
  | .role name => name ≠ ""

/-- An `AssessmentTemplate` row: the fields read by the hooks.
`default_people` is the template settings dict (`None` values map to
`none`). -/
structure Template where
  id : Nat
  test_plan_procedure : Bool
  procedure_description : String
  template_object_type : String
  sox_302_enabled : Bool
  custom_attribute_definitions : List CadDef
  default_people : String → Option TemplateRole

/-- An ACL object attached to an assessment, as returned by
`assessment.get_acl_with_role_name`. -/
structure AcListObj where
  id : Nat
  role_name : String
deriving DecidableEq

/-- An `Assessment` row: the fields read or written by the hooks. The
class-level `Statusable` constants (`NOT_DONE_STATES`, `DONE_STATES`,
`FINAL_STATE`, `DONE_STATE`) live outside the excerpt, so they are modelled
as attributes of the object, exactly as the code reads them
(`obj.NOT_DONE_STATES`, ...). `sox_302_enabled` and `preconditions_failed`
are `Option`s because the code reads them through `getattr`/`hasattr`;
`mapped` records the `map_to` calls. -/
structure Assessment where
  id : Nat
  title : String
  test_plan : String
  test_plan_procedure : Bool
  assessment_type : String
  sox_302_enabled : Option Bool
  status : String
  verified : Bool
  verifiers : List Nat
  preconditions_failed : Option Bool
  NOT_DONE_STATES : List String
  DONE_STATES : List String
  FINAL_STATE : String
  DONE_STATE : String
  acls : List AcListObj
  mapped : List (String × Nat)
deriving DecidableEq

/-- The request-global `flask.g` bucket state. `none` models the attribute
being absent (`hasattr` false). -/
structure G where
  cads_to_batch_insert : Option (List CadStub)
  acps_to_batch_insert : Option (List AcpStub)
deriving DecidableEq

/-- Ambient request context: the `Person` table used by `Person.query`, the
logged-in user id, the current time (`datetime.utcnow()`) and the
`access_control.role.get_custom_roles_for` dicts (a role-id-to-name dict per
object type). -/
structure Ctx where
  persons : List Person
  current_user_id : Nat
  now : Nat
  custom_roles_for : String → List (Nat × String)

/-- Dict lookup `d.get(k)` on a role-id-to-name dict. -/
def dict_get (d : List (Nat × String)) (k : Nat) : Option String :=
  (d.find? (fun p => p.1 = k)).map (fun p => p.2)

/-- The domain error raised when a done-state transition is rejected. -/
structure StatusValidationError where
  message : String
deriving DecidableEq

/-- The `_validate_assessment_done_state` hook helper. It raises
`StatusValidationError` for a not-done-to-done transition with failed
preconditions, and otherwise silently downgrades a final-state unverified
assessment that has verifiers (and no sox-302 flag) to `DONE_STATE`. -/
def validate_assessment_done_state (old_value : String) (obj : Assessment) :
    Except StatusValidationError Assessment :=
  let new_value := obj.status
  if old_value ∈ obj.NOT_DONE_STATES ∧ new_value ∈ obj.DONE_STATES ∧
      obj.preconditions_failed = some true then
    .error ⟨"CA-introduced completion preconditions are not satisfied. " ++
            "Check preconditions_failed of items of " ++
            "self.custom_attribute_values"⟩
  else if obj.status = obj.FINAL_STATE ∧ obj.verified = false ∧
      obj.sox_302_enabled.getD false = false ∧ obj.verifiers ≠ [] then
    .ok { obj with status := obj.DONE_STATE }
  else
    .ok obj

/-- A database session with the state committed before the request and the
pending in-transaction state; `σ` is the type of database states. -/
structure Session (σ : Type) where
  committed : σ
  pending : σ

/-- Modelled from the spec: `db.session.rollback()` of the host ORM is not in
the excerpt; per the spec it discards the enclosing transaction, restoring
the committed database state. -/
def Session.rollback {σ : Type} (s : Session σ) : Session σ :=
  { s with pending := s.committed }

/-- The `handle_assessment_done_state` put-before-commit handler: it runs
`_validate_assessment_done_state` on the old status taken from
`initial_state`; on `StatusValidationError` it rolls the session back and
re-raises the same error. -/
def handle_assessment_done_state {σ : Type} (s : Session σ)
    (initial_status : String) (obj : Assessment) :
    Session σ × Except StatusValidationError Assessment :=
  match validate_assessment_done_state initial_status obj with
  | .ok obj2 => (s, .ok obj2)
  | .error e => (s.rollback, .error e)

/-- The `set_title` hook helper:
`assessment.title = "{} assessment for {}".format(content["title"],
audit.title)`. -/
def set_title (assessment : Assessment) (audit : Audit)
    (snapshot_rev_content : RevContent) : Assessment :=
  { assessment with
      title := snapshot_rev_content.title ++ " assessment for " ++
        audit.title }

/-- The `set_test_plan` hook helper. Python string truthiness is modelled as
non-emptiness (`procedure_description` and the revision's `test_plan` are
strings, with `None`/missing flattened to `""`). -/
def set_test_plan (assessment : Assessment) (template : Option Template)
    (snapshot_rev_content : RevContent) : Assessment :=
  let assessment :=
    match template with
    | some t =>
        { assessment with
            test_plan_procedure := t.test_plan_procedure
            test_plan := t.procedure_description }
    | none => assessment
  if template.isNone ∨ (template.map (fun t => t.test_plan_procedure)).getD
      false then
    let snapshot_plan := snapshot_rev_content.test_plan
    if assessment.test_plan ≠ "" ∧ snapshot_plan ≠ "" then
      { assessment with
          test_plan := assessment.test_plan ++ "<br>" ++ snapshot_plan }
    else if snapshot_plan ≠ "" then
      { assessment with test_plan := snapshot_plan }
    else
      assessment
  else
    assessment

/-- The `set_assessment_type` hook helper. -/
def set_assessment_type (assessment : Assessment)
    (template : Option Template) : Assessment :=
  match template with
  | some t =>
      if t.template_object_type ≠ "" then
        { assessment with assessment_type := t.template_object_type }
      else assessment
  | none => assessment

/-- The `set_sox_302_enabled` hook helper: copies the template's flag
whenever a template is present. -/
def set_sox_302_enabled (assessment : Assessment)
    (template : Option Template) : Assessment :=
  match template with
  | some t => { assessment with sox_302_enabled := some t.sox_302_enabled }
  | none => assessment

/-- Modelled from the spec: `assessment.map_to(obj)` of the host framework is
not in the excerpt; it records a mapping from the assessment to the given
object, modelled as appending a `(type, id)` reference. Mapping `None` is a
no-op for the properties proved here. -/
def map_to (assessment : Assessment) (target : Option (String × Nat)) :
    Assessment :=
  match target with
  | some t => { assessment with mapped := assessment.mapped ++ [t] }
  | none => assessment

/-- The `clone_cad_stub` closure of `_mark_cads_to_batch_insert`: copies the
CAD stub and overwrites `definition_type` (the assessment table singular),
`definition_id`, timestamps, `modified_by_id` and `id`. -/
def clone_cad_stub (ctx : Ctx) (cad_stub : CadDef) (target : Assessment) :
    CadStub :=
  { cad := cad_stub
    definition_type := "assessment"
    definition_id := target.id
    created_at := ctx.now
    updated_at := ctx.now
    modified_by_id := ctx.current_user_id
    id := none }

/-- The `_mark_cads_to_batch_insert` hook helper: ensures the
`flask.g.cads_to_batch_insert` bucket exists and appends one cloned stub per
template CAD. -/
def mark_cads_to_batch_insert (ctx : Ctx) (g : G)
    (ca_definitions : List CadDef) (attributable : Assessment) : G :=
  let g :=
    if g.cads_to_batch_insert = none then
      { g with cads_to_batch_insert := some [] }
    else g
  { g with
      cads_to_batch_insert :=
        some (g.cads_to_batch_insert.getD [] ++
          ca_definitions.map (fun cd => clone_cad_stub ctx cd attributable)) }

/-- The `_batch_insert_cads` hook helper, returning the new `flask.g` state
and the list of rows passed to the batch `INSERT`: an empty (or absent)
bucket inserts nothing, otherwise the bucket is reset to `[]` and its whole
content is inserted. -/
def batch_insert_cads (g : G) : G × List CadStub :=
  let cads_to_batch_insert := g.cads_to_batch_insert.getD []
  if cads_to_batch_insert = [] then (g, [])
  else ({ g with cads_to_batch_insert := some [] }, cads_to_batch_insert)

/-- The `_mark_acps_to_batch_insert` hook helper: ensures the
`flask.g.acps_to_batch_insert` bucket exists, looks up the assessment ACL
with the given role name, and (when found) appends the `add_person_to_acl`
stub. -/
def mark_acps_to_batch_insert (ctx : Ctx) (g : G) (assignee : Person)
    (role_name : String) (assessment : Assessment) : G :=
  let g :=
    if g.acps_to_batch_insert = none then
      { g with acps_to_batch_insert := some [] }
    else g
  match assessment.acls.find? (fun a => a.role_name = role_name) with
  | none => g
  | some acl =>
      { g with
          acps_to_batch_insert :=
            some (g.acps_to_batch_insert.getD [] ++
              [⟨none, assignee.id, acl.id, ctx.now, ctx.now,
                ctx.current_user_id⟩]) }

/-- The `_batch_insert_acps` hook helper, returning the new `flask.g` state
and the list of rows passed to the batch `INSERT`. -/
def batch_insert_acps (g : G) : G × List AcpStub :=
  let acps_to_batch_insert := g.acps_to_batch_insert.getD []
  if acps_to_batch_insert = [] then (g, [])
  else ({ g with acps_to_batch_insert := some [] }, acps_to_batch_insert)

/-- Loop body of `_generate_assignee_relations`: look the person up in the
queried `person_dict` and mark ACP stubs for each role list containing the
id. -/
def assignee_relations_step (ctx : Ctx) (assessment : Assessment)
    (assignee_ids verifier_ids creator_ids : List Nat) (g : G)
    (person_id : Nat) : G :=
  match ctx.persons.find? (fun p => p.id = person_id) with
  | none => g
  | some person =>
      let g :=
        if person_id ∈ assignee_ids then
          mark_acps_to_batch_insert ctx g person "Assignees" assessment
        else g
      let g :=
        if person_id ∈ verifier_ids then
          mark_acps_to_batch_insert ctx g person "Verifiers" assessment
        else g
      if person_id ∈ creator_ids then
        mark_acps_to_batch_insert ctx g person "Creators" assessment
      else g

/-- The `_generate_assignee_relations` hook helper. Python iterates
`set(assignee_ids + verifier_ids + creator_ids)` in an unspecified order;
this is modelled by deduplicating the concatenation, which fixes one such
order (the properties proved below are order-independent). -/
def generate_assignee_relations (ctx : Ctx) (g : G)
    (assessment : Assessment)
    (assignee_ids verifier_ids creator_ids : List Nat) : G :=
  let people := (assignee_ids ++ verifier_ids ++ creator_ids).dedup
  people.foldl
    (assignee_relations_step ctx assessment assignee_ids verifier_ids
      creator_ids) g

/-- The `_get_people_ids_by_role` hook helper. The role map is a
`defaultdict` read through `.get`, so absent keys are `none` and do not
trigger the default factory. -/
def get_people_ids_by_role (role_name defaul_role_name : String)
    (template_settings : String → Option TemplateRole)
    (role_name_people_id_map : String → Option (List Nat)) : List Nat :=
  match template_settings role_name with
  | none => []
  | some template_role =>
      if template_role.truthy = false then []
      else
        match template_role with
        | .people ids => ids
        | .role tr =>
            let default_people := role_name_people_id_map defaul_role_name
            (role_name_people_id_map tr).getD (default_people.getD [])

/-- Append `v` to key `k` of a role-name-to-people `defaultdict`,
materialising the key (`m[k]` inserts `[]` first, `extend`/`append` then
appends). -/
def role_map_append (m : String → Option (List Nat)) (k : String)
    (v : List Nat) : String → Option (List Nat) :=
  fun s => if s = k then some ((m k).getD [] ++ v) else m s

/-- Loop body of the `access_control_list` loop of
`_generate_role_people_map`: skip entries whose role id was deleted from
`acr_dict`, otherwise append the person id under the role name. -/
def role_people_step (acr_dict : List (Nat × String))
    (m : String → Option (List Nat)) (acl : AclEntry) :
    String → Option (List Nat) :=
  match dict_get acr_dict acl.ac_role_id with
  | none => m
  | some acr => role_map_append m acr [acl.person_id]

/-- The `_generate_role_people_map` hook helper. Returns `none` when one of
the `next(...)` role-id lookups raises `StopIteration` (no "Auditors" or
"Audit Captains" role on Audit). -/
def generate_role_people_map (ctx : Ctx) (audit : Audit)
    (snapshot : Snapshot) (snapshot_rev_content : RevContent) :
    Option (String → Option (List Nat)) :=
  let acr_dict := ctx.custom_roles_for snapshot.child_type
  let audit_acr := ctx.custom_roles_for "Audit"
  match audit_acr.find? (fun p => p.2 = "Auditors"),
      audit_acr.find? (fun p => p.2 = "Audit Captains") with
  | some auditor_role, some captain_role =>
      let auditor_role_id := auditor_role.1
      let captain_role_id := captain_role.1
      let m :=
        snapshot_rev_content.access_control_list.foldl
          (role_people_step acr_dict) (fun _ => none)
      let m := role_map_append m "Audit Lead"
        ((audit.access_control_list.filter
            (fun p => p.ac_role_id = captain_role_id)).map
          (fun p => p.person.id))
      let m := role_map_append m "Auditors"
        ((audit.access_control_list.filter
            (fun p => p.ac_role_id = auditor_role_id)).map
          (fun p => p.person.id))
      let m :=
        if (m "Auditors").getD [] = [] then
          role_map_append m "Auditors" ((m "Audit Lead").getD [])
        else m
      some m
  | _, _ => none

/-- The `_relate_assignees` hook helper. Returns `none` where the Python
code would raise (`snapshot is None`, or a failed role lookup inside
`_generate_role_people_map`). -/
def relate_assignees (ctx : Ctx) (g : G) (assessment : Assessment)
    (snapshot : Option Snapshot) (snapshot_rev_content : RevContent)
    (template : Option Template) (audit : Audit) : Option G :=
  let template_settings : String → Option TemplateRole :=
    match template with
    | some t => t.default_people
    | none => fun r =>
        if r = "assignees" then some (.role "Principal Assignees")
        else if r = "verifiers" then some (.role "Auditors")
        else none
  match snapshot with
  | none => none
  | some snap =>
      match generate_role_people_map ctx audit snap snapshot_rev_content with
      | none => none
      | some role_people_map =>
          let assignee_ids := get_people_ids_by_role "assignees" "Audit Lead"
            template_settings role_people_map
          let verifier_ids := get_people_ids_by_role "verifiers" "Auditors"
            template_settings role_people_map
          some (generate_assignee_relations ctx g assessment assignee_ids
            verifier_ids [ctx.current_user_id])

/-- The `_handle_assessment` hook: maps the assessment to its snapshot and
audit, applies the template (sox-302 flag and CAD marking), and — for
autogenerated assessments or ones with a snapshot — relates assignees and
sets title, test plan and assessment type. Returns `none` where the Python
code would raise (missing revision content or failed role lookup). -/
def handle_assessment (ctx : Ctx) (g : G) (assessment : Assessment)
    (audit : Audit) (tmpl : Option Template) (snapshot : Option Snapshot)
    (snapshot_rev_content : Option RevContent) (is_autogenerated : Bool) :
    Option (G × Assessment) :=
  let assessment := map_to assessment
    (snapshot.map (fun s => ("Snapshot", s.id)))
  let assessment := map_to assessment (some ("Audit", audit.id))
  let (g, assessment) :=
    match tmpl with
    | some t =>
        let assessment := set_sox_302_enabled assessment (some t)
        (mark_cads_to_batch_insert ctx g t.custom_attribute_definitions
          assessment, assessment)
    | none => (g, assessment)
  if ¬ (is_autogenerated = true ∨ snapshot.isSome = true) then
    some (g, assessment)
  else
    match snapshot_rev_content with
    | none => none
    | some content =>
        match relate_assignees ctx g assessment snapshot content tmpl
            audit with
        | none => none
        | some g =>
            let assessment := set_title assessment audit content
            let assessment := set_test_plan assessment tmpl content
            let assessment := set_assessment_type assessment tmpl
            some (g, assessment)

end Hooks

namespace ImportHelper

/-- Python `s.lower()`, as the list of lowered characters of `s` (ASCII
lowering, `Char.toLower`). -/
def lower_string (s : String) : List Char :=
  s.data.map Char.toLower

/-- Lexicographic comparison of character lists by code point: the order in
which Python compares the `x.lower()` sort keys. -/
def lex_le : List Char → List Char → Bool
  | [], _ => true
  | _ :: _, [] => false
  | a :: as, b :: bs =>
    if a.toNat < b.toNat then true
    else if b.toNat < a.toNat then false
    else lex_le as bs

/-- The case-insensitive order `sort(key=lambda x: x.lower())` sorts by. -/
def lower_le (a b : String) : Prop :=
  lex_le (lower_string a) (lower_string b) = true

instance : DecidableRel lower_le := fun a b =>
  inferInstanceAs (Decidable (lex_le (lower_string a) (lower_string b) = true))

instance : IsTotal String lower_le where
  total := by
    intro a b
    show lex_le (lower_string a) (lower_string b) = true ∨
      lex_le (lower_string b) (lower_string a) = true
    generalize lower_string a = x
    generalize lower_string b = y
    induction x generalizing y with
    | nil => left; rfl
    | cons c cs ih =>
      cases y with
      | nil => right; rfl
      | cons d ds =>
        rcases Nat.lt_trichotomy c.toNat d.toNat with h | h | h
        · left; simp [lex_le, h]
        · rcases ih ds with h2 | h2
          · left; simp [lex_le, h, Nat.lt_irrefl, h2]
          · right; simp [lex_le, h.symm, Nat.lt_irrefl, h2]
        · right; simp [lex_le, h]

instance : IsTrans String lower_le where
  trans := by
    have key : ∀ (x y z : List Char), lex_le x y = true →
        lex_le y z = true → lex_le x z = true := by
      intro x
      induction x with
      | nil => intro y z _ _; rfl
      | cons a as ih =>
        intro y z hxy hyz
        cases y with
        | nil => simp [lex_le] at hxy
        | cons b bs =>
          cases z with
          | nil => simp [lex_le] at hyz
          | cons d ds =>
            by_cases h1 : a.toNat < b.toNat
            · by_cases h2 : b.toNat < d.toNat
              · have h3 : a.toNat < d.toNat := Nat.lt_trans h1 h2
                simp [lex_le, h3]
              · by_cases h3 : d.toNat < b.toNat
                · simp [lex_le, h2, h3] at hyz
                · have h4 : a.toNat < d.toNat := by omega
                  simp [lex_le, h4]
            · by_cases h1b : b.toNat < a.toNat
              · simp [lex_le, h1, h1b] at hxy
              · by_cases h2 : b.toNat < d.toNat
                · have h3 : a.toNat < d.toNat := by omega
                  simp [lex_le, h3]
                · by_cases h3 : d.toNat < b.toNat
                  · simp [lex_le, h2, h3] at hyz
                  · have h4 : ¬ a.toNat < d.toNat := by omega
                    have h5 : ¬ d.toNat < a.toNat := by omega
                    have hxy2 : lex_le as bs = true := by
                      simpa [lex_le, h1, h1b] using hxy
                    have hyz2 : lex_le bs ds = true := by
                      simpa [lex_le, h2, h3] using hyz
                    simpa [lex_le, h4, h5] using ih bs ds hxy2 hyz2
    intro a b c hab hbc
    exact key _ _ _ hab hbc

/-- Python `v.lower().startswith("map:")`. -/
def starts_with_map (v : String) : Bool :=
  "map:".data.isPrefixOf (lower_string v)

/-- The `get_column_order` function of the import helper. `COLUMN_ORDER` is a
constant list defined outside the excerpt, so it is taken as a parameter.
Python's stable `list.sort(key=lambda x: x.lower())` is embedded as the
stable `List.insertionSort` by the case-insensitive order `lower_le`; the
`attr_set`/`default_set` membership tests are list membership. -/
def get_column_order (column_order : List String)
    (attr_list : List String) : List String :=
  let default_attrs := column_order.filter (fun v => decide (v ∈ attr_list))
  let other_attrs := attr_list.filter (fun v => decide (v ∉ default_attrs))
  let custom_attrs := other_attrs.filter (fun v => !starts_with_map v)
  let mapping_attrs := other_attrs.filter (fun v => starts_with_map v)
  default_attrs ++ List.insertionSort lower_le custom_attrs ++
    List.insertionSort lower_le mapping_attrs

end ImportHelper

namespace Hooks

/-- A concrete assessment mid-way through a not-done-to-done status update
with failed preconditions, used to exercise the done-state validation. -/
def asmt_c2 : Assessment :=
  { id := 1
    title := "asmt"
    test_plan := ""
    test_plan_procedure := false
    assessment_type := "Control"
    sox_302_enabled := none
    status := "Completed"
    verified := false
    verifiers := []
    preconditions_failed := some true
    NOT_DONE_STATES := ["Not Started", "In Progress"]
    DONE_STATES := ["Completed", "In Review", "Verified"]
    FINAL_STATE := "Completed"
    DONE_STATE := "In Review"
    acls := []
    mapped := [] }

/-- The error raised by `_validate_assessment_done_state`. -/
def precondition_error : StatusValidationError :=
  ⟨"CA-introduced completion preconditions are not satisfied. " ++
   "Check preconditions_failed of items of " ++
   "self.custom_attribute_values"⟩

/-- A concrete assessment sitting in the final state, unverified, with a
verifier assigned, used to exercise the silent status downgrade. -/
def asmt_c8 : Assessment :=
  { asmt_c2 with
      preconditions_failed := none
      verifiers := [3] }

/-- The assessment `asmt_c8` after the silent downgrade to `DONE_STATE`. -/
def asmt_c8_done : Assessment :=
  { asmt_c8 with status := "In Review" }

/-- A concrete request context for exercising the creation hooks. -/
def ctx_w : Ctx :=
  { persons := [⟨1⟩]
    current_user_id := 1
    now := 7
    custom_roles_for := fun ty =>
      if ty = "Audit" then [(1, "Auditors"), (2, "Audit Captains")] else [] }

/-- An empty `flask.g` state (neither bucket attribute set). -/
def g_w : G := { cads_to_batch_insert := none, acps_to_batch_insert := none }

/-- A concrete assessment as created from POSTed JSON, before the hooks. -/
def asmt_w : Assessment :=
  { asmt_c2 with
      preconditions_failed := none
      status := "Not Started"
      acls := [⟨11, "Creators"⟩, ⟨12, "Assignees"⟩, ⟨13, "Verifiers"⟩] }

/-- A concrete audit for the creation hooks. -/
def audit_w : Audit :=
  { id := 2, title := "Audit 2021", access_control_list := [] }

/-- A concrete snapshot for the creation hooks. -/
def snap_w : Snapshot := { id := 5, child_type := "Control" }

/-- A concrete snapshot revision content for the creation hooks. -/
def content_w : RevContent :=
  { title := "Ctl", test_plan := "snap plan", access_control_list := [] }

/-- A concrete assessment template with `sox_302_enabled` set. -/
def tmpl_w : Template :=
  { id := 3
    test_plan_procedure := true
    procedure_description := "do things"
    template_object_type := "Control"
    sox_302_enabled := true
    custom_attribute_definitions := [⟨"CAD1", "Text", false, ""⟩]
    default_people := fun _ => none }

/-- The result of the creation hook on the `tmpl_w` template without a
snapshot (the early-return path). -/
def c5_pair : G × Assessment :=
  (handle_assessment ctx_w g_w asmt_w audit_w (some tmpl_w) none none
    false).getD (g_w, asmt_w)

/-- The result of the creation hook on the `tmpl_w` template with the
`snap_w` snapshot (the full path). -/
def c6_pair : G × Assessment :=
  (handle_assessment ctx_w g_w asmt_w audit_w (some tmpl_w) (some snap_w)
    (some content_w) false).getD (g_w, asmt_w)

/-- The person ids contributed to role `k` of the role-name-to-people map by
the snapshot revision's `access_control_list` entries (entries whose role id
resolves in `acr_dict` to the role name `k`). -/
def role_contrib (acr_dict : List (Nat × String)) (entries : List AclEntry)
    (k : String) : List Nat :=
  entries.filterMap (fun acl =>
    match dict_get acr_dict acl.ac_role_id with
    | some acr => if acr = k then some acl.person_id else none
    | none => none)

/-- The role-name-to-people map generated for `ctx_w`, `audit_w`, `snap_w`
and `content_w` (an audit with captains but no auditors). -/
def c10_audit : Audit :=
  { id := 2, title := "Audit 2021"
    access_control_list := [⟨⟨9⟩, 2⟩] }

/-- The generated role map for the `c10_audit` fixture. -/
def c10_map : String → Option (List Nat) :=
  (generate_role_people_map ctx_w c10_audit snap_w content_w).getD
    (fun _ => none)

end Hooks

namespace ImportHelper

/-- A concrete `COLUMN_ORDER` prefix used to exercise `get_column_order`. -/
def co_w : List String := ["title", "code", "description"]

/-- A concrete attribute list used to exercise `get_column_order`. -/
def attrs_w : List String :=
  ["map: program", "B attr", "code", "a attr", "Map: audit", "title"]

end ImportHelper

namespace Migration

/-- C1: for every table in `scope_tables_names`, the migration's upgrade adds
exactly the three columns `external_id` (integer, nullable), `external_slug`
(string(255), nullable) and `created_by_id` (integer, nullable) to that table,
and adds exactly the unique constraint on `external_id` and the unique
constraint on `external_slug` for that table. -/
theorem upgrade_extends_scope_tables (t : String)
    (ht : t ∈ scope_tables_names) :
    upgrade.filter (MigOp.isAddColumnOn t) =
      [ .add_column t "external_id" .integer (some false) true
      , .add_column t "external_slug" (.string 255) (some false) true
      , .add_column t "created_by_id" .integer none true
      ] ∧
    upgrade.filter (MigOp.isUniqueOn t) =
      [ .create_unique_constraint "uq_external_id" t ["external_id"]
      , .create_unique_constraint "uq_external_slug" t ["external_slug"]
      ] := by
  fin_cases ht <;> exact ⟨by decide, by decide⟩

/-- Witness for C1 at the concrete table `markets`. -/
theorem upgrade_extends_scope_tables_witness :
    "markets" ∈ scope_tables_names ∧
    upgrade.filter (MigOp.isAddColumnOn "markets") =
      [ .add_column "markets" "external_id" .integer (some false) true
      , .add_column "markets" "external_slug" (.string 255) (some false) true
      , .add_column "markets" "created_by_id" .integer none true
      ] :=
  ⟨by decide, (upgrade_extends_scope_tables "markets" (by decide)).1⟩

/-- C4: invoking `downgrade` on any database state raises (returns the
`NotImplementedError` message) and performs no schema change. -/
theorem downgrade_always_raises (s : Schema) :
    downgrade s = .error "Downgrade is not supported" := rfl

end Migration

namespace Hooks

/-- C2: during an assessment status update, if the old status is in
`NOT_DONE_STATES`, the new status is in `DONE_STATES` and the computed
`preconditions_failed` attribute is truthy, `_validate_assessment_done_state`
raises `StatusValidationError`. -/
theorem validate_raises_on_done_transition (old_value : String)
    (obj : Assessment)
    (h1 : old_value ∈ obj.NOT_DONE_STATES)
    (h2 : obj.status ∈ obj.DONE_STATES)
    (h3 : obj.preconditions_failed = some true) :
    validate_assessment_done_state old_value obj =
      .error precondition_error := by
  unfold validate_assessment_done_state precondition_error
  rw [if_pos ⟨h1, h2, h3⟩]

/-- Witness for C2 on the concrete assessment `asmt_c2`. -/
theorem validate_raises_on_done_transition_witness :
    "In Progress" ∈ asmt_c2.NOT_DONE_STATES ∧
    validate_assessment_done_state "In Progress" asmt_c2 =
      .error precondition_error :=
  ⟨by decide,
   validate_raises_on_done_transition "In Progress" asmt_c2 (by decide)
     (by decide) rfl⟩

/-- C3: whenever `_validate_assessment_done_state` raises, the
put-before-commit handler rolls the session back and re-raises the same
error; the resulting pending database state equals the committed one. -/
theorem handler_rolls_back_and_reraises {σ : Type} (s : Session σ)
    (old_value : String) (obj : Assessment) (e : StatusValidationError)
    (h : validate_assessment_done_state old_value obj = .error e) :
    handle_assessment_done_state s old_value obj =
      (s.rollback, .error e) ∧
    (handle_assessment_done_state s old_value obj).1.pending =
      s.committed := by
  unfold handle_assessment_done_state
  rw [h]
  exact ⟨rfl, rfl⟩

/-- Witness for C3 on the concrete assessment `asmt_c2` and a session whose
pending state differs from the committed one. -/
theorem handler_rolls_back_and_reraises_witness :
    validate_assessment_done_state "In Progress" asmt_c2 =
      .error precondition_error ∧
    handle_assessment_done_state (⟨0, 1⟩ : Session Nat) "In Progress"
      asmt_c2 = ((⟨0, 0⟩ : Session Nat), .error precondition_error) :=
  ⟨validate_raises_on_done_transition "In Progress" asmt_c2 (by decide)
     (by decide) rfl,
   (handler_rolls_back_and_reraises (⟨0, 1⟩ : Session Nat) "In Progress"
     asmt_c2 precondition_error
     (validate_raises_on_done_transition "In Progress" asmt_c2 (by decide)
       (by decide) rfl)).1⟩

/-- C8: when `_validate_assessment_done_state` returns normally, the
resulting assessment is the input with its status silently downgraded to
`DONE_STATE` exactly when the status equals `FINAL_STATE`, the assessment is
not verified, the sox-302 flag is false or absent, and there is at least one
verifier; otherwise the assessment (in particular its status) is left
unchanged. -/
theorem validate_downgrades_final_to_done (old_value : String)
    (obj obj2 : Assessment)
    (h : validate_assessment_done_state old_value obj = .ok obj2) :
    obj2 =
      if obj.status = obj.FINAL_STATE ∧ obj.verified = false ∧
          obj.sox_302_enabled.getD false = false ∧ obj.verifiers ≠ [] then
        { obj with status := obj.DONE_STATE }
      else obj := by
  simp only [validate_assessment_done_state] at h
  split at h
  · exact Except.noConfusion h
  · split at h
    next hc =>
      rw [if_pos hc]
      exact (Except.ok.inj h).symm
    next hc =>
      rw [if_neg hc]
      exact (Except.ok.inj h).symm

/-- Witness for C8 on the concrete assessment `asmt_c8`, where the downgrade
condition holds. -/
theorem validate_downgrades_final_to_done_witness :
    validate_assessment_done_state "Completed" asmt_c8 = .ok asmt_c8_done ∧
    asmt_c8_done =
      if asmt_c8.status = asmt_c8.FINAL_STATE ∧ asmt_c8.verified = false ∧
          asmt_c8.sox_302_enabled.getD false = false ∧
          asmt_c8.verifiers ≠ [] then
        { asmt_c8 with status := asmt_c8.DONE_STATE }
      else asmt_c8 :=
  ⟨rfl, validate_downgrades_final_to_done "Completed" asmt_c8 asmt_c8_done
    rfl⟩

/-- C7: the CAD batch-insert bucket is a per-request bucket: marking appends
exactly the cloned stubs to `flask.g.cads_to_batch_insert`, one batch-insert
call inserts exactly the bucket's current content and leaves the bucket
empty, and an immediately following call inserts nothing. -/
theorem cads_batch_bucket_spec (ctx : Ctx) (g : G)
    (ca_definitions : List CadDef) (attributable : Assessment) :
    (mark_cads_to_batch_insert ctx g ca_definitions
        attributable).cads_to_batch_insert.getD [] =
      g.cads_to_batch_insert.getD [] ++
        ca_definitions.map (fun cd => clone_cad_stub ctx cd attributable) ∧
    (batch_insert_cads g).2 = g.cads_to_batch_insert.getD [] ∧
    (batch_insert_cads g).1.cads_to_batch_insert.getD [] = [] ∧
    (batch_insert_cads (batch_insert_cads g).1).2 = [] := by
  obtain ⟨cads, acps⟩ := g
  refine ⟨?_, ?_⟩
  · cases cads <;> simp [mark_cads_to_batch_insert]
  · cases cads with
    | none => simp [batch_insert_cads]
    | some l =>
        by_cases hl : l = []
        · subst hl; simp [batch_insert_cads]
        · simp [batch_insert_cads, hl]

end Hooks

namespace Hooks

/-- `map_to` only changes the `mapped` field. -/
theorem map_to_eq (a : Assessment) (tgt : Option (String × Nat)) :
    ∃ mp, map_to a tgt = { a with mapped := mp } := by
  cases tgt <;> exact ⟨_, rfl⟩

/-- `set_sox_302_enabled` only changes the `sox_302_enabled` field. -/
theorem set_sox_302_enabled_eq (a : Assessment) (t : Option Template) :
    ∃ s, set_sox_302_enabled a t = { a with sox_302_enabled := s } := by
  cases t <;> exact ⟨_, rfl⟩

/-- `set_sox_302_enabled` with a template copies the template's flag. -/
theorem set_sox_302_enabled_some (a : Assessment) (t : Template) :
    (set_sox_302_enabled a (some t)).sox_302_enabled =
      some t.sox_302_enabled := rfl

/-- `set_test_plan` only changes the `test_plan_procedure` and `test_plan`
fields. -/
theorem set_test_plan_eq (a : Assessment) (t : Option Template)
    (c : RevContent) :
    ∃ tpp tp, set_test_plan a t c =
      { a with test_plan_procedure := tpp, test_plan := tp } := by
  unfold set_test_plan
  cases t <;> dsimp only
  all_goals repeat' split
  all_goals exact ⟨_, _, rfl⟩

/-- `set_assessment_type` only changes the `assessment_type` field. -/
theorem set_assessment_type_eq (a : Assessment) (t : Option Template) :
    ∃ ty, set_assessment_type a t = { a with assessment_type := ty } := by
  unfold set_assessment_type
  cases t <;> dsimp only
  all_goals repeat' split
  all_goals exact ⟨_, rfl⟩

/-- With a template whose `test_plan_procedure` is set and both procedure
description and snapshot test plan non-empty, `set_test_plan` concatenates
them with `<br>`. -/
theorem set_test_plan_template_concat (a : Assessment) (t : Template)
    (c : RevContent) (htpp : t.test_plan_procedure = true)
    (hpd : t.procedure_description ≠ "") (hsp : c.test_plan ≠ "") :
    (set_test_plan a (some t) c).test_plan =
      t.procedure_description ++ "<br>" ++ c.test_plan := by
  unfold set_test_plan
  dsimp only
  rw [if_pos (Or.inr (by simp [htpp]))]
  rw [if_pos ⟨hpd, hsp⟩]

/-- `_mark_acps_to_batch_insert` leaves the CAD bucket untouched. -/
theorem mark_acps_cads (ctx : Ctx) (g : G) (p : Person) (r : String)
    (a : Assessment) :
    (mark_acps_to_batch_insert ctx g p r a).cads_to_batch_insert =
      g.cads_to_batch_insert := by
  unfold mark_acps_to_batch_insert
  repeat' split
  all_goals rfl

/-- The ACP bucket after `_mark_acps_to_batch_insert`: the old bucket plus
the `add_person_to_acl` stub when the role's ACL exists on the
assessment. -/
theorem mark_acps_bucket (ctx : Ctx) (g : G) (p : Person) (r : String)
    (a : Assessment) :
    (mark_acps_to_batch_insert ctx g p r a).acps_to_batch_insert.getD [] =
      g.acps_to_batch_insert.getD [] ++
        (match a.acls.find? (fun l => l.role_name = r) with
         | none => []
         | some acl =>
             [⟨none, p.id, acl.id, ctx.now, ctx.now,
               ctx.current_user_id⟩]) := by
  unfold mark_acps_to_batch_insert
  dsimp only
  cases hb : g.acps_to_batch_insert <;>
    cases hf : a.acls.find? (fun l => l.role_name = r) <;>
      simp [hb, hf]

/-- Membership in the ACP bucket is preserved by a conditional marking. -/
theorem mem_bucket_ite (c : Prop) [Decidable c] (ctx : Ctx) (gx : G)
    (p : Person) (r : String) (a : Assessment) (x : AcpStub)
    (hx : x ∈ gx.acps_to_batch_insert.getD []) :
    x ∈ (if c then mark_acps_to_batch_insert ctx gx p r a
         else gx).acps_to_batch_insert.getD [] := by
  split
  · rw [mark_acps_bucket]; exact List.mem_append_left _ hx
  · exact hx

/-- The per-person loop body of `_generate_assignee_relations` leaves the
CAD bucket untouched. -/
theorem step_cads (ctx : Ctx) (assessment : Assessment)
    (ai vi ci : List Nat) (g : G) (pid : Nat) :
    (assignee_relations_step ctx assessment ai vi ci g
        pid).cads_to_batch_insert = g.cads_to_batch_insert := by
  unfold assignee_relations_step
  cases hf : ctx.persons.find? (fun p => p.id = pid) with
  | none => rfl
  | some person =>
      dsimp only
      simp only [apply_ite (fun gg : G => gg.cads_to_batch_insert),
        mark_acps_cads, ite_self]

/-- The per-person loop body of `_generate_assignee_relations` only appends
to the ACP bucket. -/
theorem step_acps_mono (ctx : Ctx) (assessment : Assessment)
    (ai vi ci : List Nat) (g : G) (pid : Nat) (x : AcpStub)
    (hx : x ∈ g.acps_to_batch_insert.getD []) :
    x ∈ (assignee_relations_step ctx assessment ai vi ci g
        pid).acps_to_batch_insert.getD [] := by
  unfold assignee_relations_step
  cases hf : ctx.persons.find? (fun p => p.id = pid) with
  | none => exact hx
  | some person =>
      dsimp only
      exact mem_bucket_ite _ _ _ _ _ _ _
        (mem_bucket_ite _ _ _ _ _ _ _ (mem_bucket_ite _ _ _ _ _ _ _ hx))

/-- A person in the creator role list with a matching `Person` row and a
`Creators` ACL on the assessment gets an ACP stub appended by the loop
body. -/
theorem step_adds_creator (ctx : Ctx) (assessment : Assessment)
    (ai vi ci : List Nat) (g : G) (pid : Nat) (person : Person)
    (acl : AcListObj)
    (hpid : pid ∈ ci)
    (hp : ctx.persons.find? (fun p => p.id = pid) = some person)
    (hacl : assessment.acls.find? (fun l => l.role_name = "Creators") =
      some acl) :
    (⟨none, person.id, acl.id, ctx.now, ctx.now, ctx.current_user_id⟩ :
        AcpStub) ∈
      (assignee_relations_step ctx assessment ai vi ci g
          pid).acps_to_batch_insert.getD [] := by
  unfold assignee_relations_step
  rw [hp]
  dsimp only
  rw [if_pos hpid, mark_acps_bucket, hacl]
  simp

/-- The whole `_generate_assignee_relations` loop leaves the CAD bucket
untouched. -/
theorem fold_cads (ctx : Ctx) (assessment : Assessment)
    (ai vi ci : List Nat) (people : List Nat) (g : G) :
    (people.foldl (assignee_relations_step ctx assessment ai vi ci)
        g).cads_to_batch_insert = g.cads_to_batch_insert := by
  induction people generalizing g with
  | nil => rfl
  | cons q qs ih =>
      simp only [List.foldl_cons]
      rw [ih, step_cads]

/-- The whole `_generate_assignee_relations` loop only appends to the ACP
bucket. -/
theorem fold_acps_mono (ctx : Ctx) (assessment : Assessment)
    (ai vi ci : List Nat) (people : List Nat) (g : G) (x : AcpStub)
    (hx : x ∈ g.acps_to_batch_insert.getD []) :
    x ∈ (people.foldl (assignee_relations_step ctx assessment ai vi ci)
        g).acps_to_batch_insert.getD [] := by
  induction people generalizing g with
  | nil => exact hx
  | cons q qs ih =>
      simp only [List.foldl_cons]
      exact ih _ (step_acps_mono _ _ _ _ _ _ _ _ hx)

/-- Iterating the `_generate_assignee_relations` loop over a set of people
that contains a creator with a matching `Person` row appends their ACP
stub. -/
theorem fold_adds_creator (ctx : Ctx) (assessment : Assessment)
    (ai vi ci : List Nat) (people : List Nat) (pid : Nat) (person : Person)
    (acl : AcListObj)
    (hpid : pid ∈ ci)
    (hp : ctx.persons.find? (fun p => p.id = pid) = some person)
    (hacl : assessment.acls.find? (fun l => l.role_name = "Creators") =
      some acl)
    (hmem : pid ∈ people) (g : G) :
    (⟨none, person.id, acl.id, ctx.now, ctx.now, ctx.current_user_id⟩ :
        AcpStub) ∈
      (people.foldl (assignee_relations_step ctx assessment ai vi ci)
          g).acps_to_batch_insert.getD [] := by
  induction people generalizing g with
  | nil => cases hmem
  | cons q qs ih =>
      simp only [List.foldl_cons]
      rcases List.mem_cons.mp hmem with hq | hq
      · subst hq
        exact fold_acps_mono _ _ _ _ _ _ _ _
          (step_adds_creator _ _ _ _ _ _ _ _ _ hpid hp hacl)
      · exact ih hq _

/-- The CAD bucket after `_mark_cads_to_batch_insert`: the old bucket plus
the cloned stubs. -/
theorem mark_cads_bucket (ctx : Ctx) (g : G) (cads : List CadDef)
    (att : Assessment) :
    (mark_cads_to_batch_insert ctx g cads
        att).cads_to_batch_insert.getD [] =
      g.cads_to_batch_insert.getD [] ++
        cads.map (fun cd => clone_cad_stub ctx cd att) := by
  cases hb : g.cads_to_batch_insert <;>
    simp [mark_cads_to_batch_insert, hb]

/-- A successful `_relate_assignees` call leaves the CAD bucket untouched
and, when the current user has a `Person` row and the assessment has a
`Creators` ACL, appends the current user's creator ACP stub. -/
theorem relate_assignees_spec (ctx : Ctx) (g : G)
    (assessment : Assessment) (snap : Snapshot) (content : RevContent)
    (template : Option Template) (audit : Audit) (g3 : G)
    (h : relate_assignees ctx g assessment (some snap) content template
        audit = some g3) :
    g3.cads_to_batch_insert = g.cads_to_batch_insert ∧
    ∀ person,
      ctx.persons.find? (fun p => p.id = ctx.current_user_id) =
        some person →
      ∀ acl,
        assessment.acls.find? (fun l => l.role_name = "Creators") =
          some acl →
        (⟨none, person.id, acl.id, ctx.now, ctx.now,
            ctx.current_user_id⟩ : AcpStub) ∈
          g3.acps_to_batch_insert.getD [] := by
  unfold relate_assignees at h
  dsimp only at h
  split at h
  · exact Option.noConfusion h
  next role_map hmap =>
    have hg3 := (Option.some.inj h).symm
    constructor
    · rw [hg3]
      exact fold_cads _ _ _ _ _ _ _
    · intro person hp acl hacl
      rw [hg3]
      unfold generate_assignee_relations
      exact fold_adds_creator _ _ _ _ _ _ _ _ _ (by simp) hp hacl
        (List.mem_dedup.mpr (by simp)) _

end Hooks

namespace Hooks

/-- C5: for every assessment POSTed with a template whose `sox_302_enabled`
is true, the creation hook sets the created assessment's `sox_302_enabled`
to true. -/
theorem post_copies_sox_302_from_template (ctx : Ctx) (g : G)
    (assessment : Assessment) (audit : Audit) (t : Template)
    (snapshot : Option Snapshot) (content : Option RevContent)
    (is_autogenerated : Bool) (g2 : G) (a2 : Assessment)
    (ht : t.sox_302_enabled = true)
    (h : handle_assessment ctx g assessment audit (some t) snapshot content
        is_autogenerated = some (g2, a2)) :
    a2.sox_302_enabled = some true := by
  simp only [handle_assessment] at h
  split at h
  · rw [Option.some.injEq, Prod.mk.injEq] at h
    obtain ⟨hg, ha⟩ := h
    rw [← ha, set_sox_302_enabled_some, ht]
  · split at h
    · exact Option.noConfusion h
    next content2 =>
      split at h
      · exact Option.noConfusion h
      next g3 hrel =>
        rw [Option.some.injEq, Prod.mk.injEq] at h
        obtain ⟨hg, ha⟩ := h
        obtain ⟨ty, hty⟩ := set_assessment_type_eq
          (set_test_plan (set_title (set_sox_302_enabled
            (map_to (map_to assessment _) _) (some t)) audit content2)
            (some t) content2) (some t)
        rw [← ha, hty]
        obtain ⟨tpp, tp, htp⟩ := set_test_plan_eq
          (set_title (set_sox_302_enabled (map_to (map_to assessment _) _)
            (some t)) audit content2) (some t) content2
        rw [htp]
        simp [set_title, set_sox_302_enabled, ht]

/-- Witness for C5: the creation hook on the concrete `tmpl_w` template
(whose flag is set) without a snapshot. -/
theorem post_copies_sox_302_witness :
    tmpl_w.sox_302_enabled = true ∧
    c5_pair.2.sox_302_enabled = some true :=
  ⟨rfl,
   post_copies_sox_302_from_template ctx_w g_w asmt_w audit_w tmpl_w none
     none false c5_pair.1 c5_pair.2 rfl rfl⟩

/-- C6: for an assessment created from a template and snapshot, the creation
hook populates the derived state: the title is set to
`"<snapshot revision title> assessment for <audit title>"`, the test plan is
derived from the template procedure and the snapshot revision, one CAD stub
per template custom attribute definition is appended to the request bucket,
and the current user's `Creators` role-assignment stub is placed in the ACP
bucket. -/
theorem post_populates_from_snapshot (ctx : Ctx) (g : G)
    (assessment : Assessment) (audit : Audit) (t : Template)
    (snap : Snapshot) (content : RevContent) (is_autogenerated : Bool)
    (g2 : G) (a2 : Assessment) (cu : Person) (creators_acl : AcListObj)
    (htpp : t.test_plan_procedure = true)
    (hpd : t.procedure_description ≠ "")
    (hsp : content.test_plan ≠ "")
    (hp : ctx.persons.find? (fun p => p.id = ctx.current_user_id) =
      some cu)
    (hacl : assessment.acls.find? (fun l => l.role_name = "Creators") =
      some creators_acl)
    (h : handle_assessment ctx g assessment audit (some t) (some snap)
        (some content) is_autogenerated = some (g2, a2)) :
    a2.title = content.title ++ " assessment for " ++ audit.title ∧
    a2.test_plan = t.procedure_description ++ "<br>" ++ content.test_plan ∧
    g2.cads_to_batch_insert.getD [] =
      g.cads_to_batch_insert.getD [] ++
        t.custom_attribute_definitions.map (fun cd =>
          ⟨cd, "assessment", assessment.id, ctx.now, ctx.now,
            ctx.current_user_id, none⟩) ∧
    (⟨none, cu.id, creators_acl.id, ctx.now, ctx.now,
        ctx.current_user_id⟩ : AcpStub) ∈
      g2.acps_to_batch_insert.getD [] := by
  simp only [handle_assessment, Option.map_some', Option.isSome_some] at h
  rw [if_neg (by simp)] at h
  split at h
  · exact Option.noConfusion h
  next g3 hrel =>
    rw [Option.some.injEq, Prod.mk.injEq] at h
    obtain ⟨hg, ha⟩ := h
    have hA : set_sox_302_enabled
        (map_to (map_to assessment (some ("Snapshot", snap.id)))
          (some ("Audit", audit.id))) (some t) =
        { assessment with
            mapped := assessment.mapped ++ [("Snapshot", snap.id)] ++
              [("Audit", audit.id)]
            sox_302_enabled := some t.sox_302_enabled } := rfl
    rw [hA] at hrel ha
    obtain ⟨hcads, hcreator⟩ := relate_assignees_spec _ _ _ _ _ _ _ _ hrel
    refine ⟨?_, ?_, ?_, ?_⟩
    · obtain ⟨ty, hty⟩ := set_assessment_type_eq
        (set_test_plan (set_title _ audit content) (some t) content)
        (some t)
      rw [← ha, hty]
      obtain ⟨tpp, tp, htp⟩ := set_test_plan_eq
        (set_title _ audit content) (some t) content
      rw [htp]
      rfl
    · obtain ⟨ty, hty⟩ := set_assessment_type_eq
        (set_test_plan (set_title _ audit content) (some t) content)
        (some t)
      rw [← ha, hty]
      show (set_test_plan (set_title _ audit content) (some t)
        content).test_plan = _
      rw [set_test_plan_template_concat _ t content htpp hpd hsp]
    · rw [← hg, hcads, mark_cads_bucket]
      rfl
    · rw [← hg]
      exact hcreator cu hp creators_acl hacl

/-- Witness for C6 on the concrete fixtures: template `tmpl_w`, snapshot
`snap_w`, revision content `content_w`. -/
theorem post_populates_from_snapshot_witness :
    tmpl_w.test_plan_procedure = true ∧
    (c6_pair.2.title =
        content_w.title ++ " assessment for " ++ audit_w.title ∧
      c6_pair.2.test_plan =
        tmpl_w.procedure_description ++ "<br>" ++ content_w.test_plan ∧
      c6_pair.1.cads_to_batch_insert.getD [] =
        g_w.cads_to_batch_insert.getD [] ++
          tmpl_w.custom_attribute_definitions.map (fun cd =>
            ⟨cd, "assessment", asmt_w.id, ctx_w.now, ctx_w.now,
              ctx_w.current_user_id, none⟩) ∧
      (⟨none, (⟨1⟩ : Person).id, (⟨11, "Creators"⟩ : AcListObj).id,
          ctx_w.now, ctx_w.now, ctx_w.current_user_id⟩ : AcpStub) ∈
        c6_pair.1.acps_to_batch_insert.getD []) :=
  ⟨rfl,
   post_populates_from_snapshot ctx_w g_w asmt_w audit_w tmpl_w snap_w
     content_w false c6_pair.1 c6_pair.2 ⟨1⟩ ⟨11, "Creators"⟩ rfl
     (by decide) (by decide) rfl rfl rfl⟩

end Hooks

namespace Hooks

/-- `role_map_append` at the appended key. -/
theorem role_map_append_same (m : String → Option (List Nat)) (k : String)
    (v : List Nat) :
    role_map_append m k v k = some ((m k).getD [] ++ v) := by
  simp [role_map_append]

/-- `role_map_append` at any other key. -/
theorem role_map_append_other (m : String → Option (List Nat))
    (k : String) (v : List Nat) (s : String) (h : s ≠ k) :
    role_map_append m k v s = m s := by
  simp [role_map_append, h]

/-- Unfolding `role_contrib` on a cons cell. -/
theorem role_contrib_cons (acr_dict : List (Nat × String)) (e : AclEntry)
    (es : List AclEntry) (k : String) :
    role_contrib acr_dict (e :: es) k =
      (match dict_get acr_dict e.ac_role_id with
       | some acr =>
           if acr = k then e.person_id :: role_contrib acr_dict es k
           else role_contrib acr_dict es k
       | none => role_contrib acr_dict es k) := by
  unfold role_contrib
  rw [List.filterMap_cons]
  cases hd : dict_get acr_dict e.ac_role_id with
  | none => rfl
  | some acr =>
      dsimp only
      by_cases hk : acr = k
      · simp [hk]
      · simp [hk]

/-- The value of the snapshot ACL loop of `_generate_role_people_map` at a
key: unchanged when the entries contribute nothing to it, otherwise the old
value (defaulting to `[]`) extended by the contributions. -/
theorem role_fold_eval (acr_dict : List (Nat × String))
    (entries : List AclEntry) (m : String → Option (List Nat))
    (k : String) :
    entries.foldl (role_people_step acr_dict) m k =
      if role_contrib acr_dict entries k = [] then m k
      else some ((m k).getD [] ++ role_contrib acr_dict entries k) := by
  induction entries generalizing m with
  | nil => simp [role_contrib]
  | cons e es ih =>
      rw [List.foldl_cons, ih, role_contrib_cons]
      unfold role_people_step
      cases hd : dict_get acr_dict e.ac_role_id with
      | none => rfl
      | some acr =>
          dsimp only
          by_cases hk : acr = k
          · subst hk
            rw [if_pos rfl]
            simp only [role_map_append_same]
            by_cases hc : role_contrib acr_dict es acr = []
            · simp [hc]
            · simp [hc, List.append_assoc]
          · rw [if_neg hk]
            have hne : k ≠ acr := fun hkk => hk hkk.symm
            simp only [role_map_append_other _ _ _ _ hne]

/-- C10: in the generated role-name-to-people map, when neither the snapshot
ACL nor the audit contributes any person to "Auditors", the people mapped to
"Audit Lead" are used as the "Auditors"; when at least one auditor exists,
the auditors are exactly the snapshot and audit contributions, not augmented
with audit captains. -/
theorem auditors_fallback_to_audit_lead (ctx : Ctx) (audit : Audit)
    (snap : Snapshot) (content : RevContent)
    (m : String → Option (List Nat)) (ar cr : Nat × String)
    (hfa : (ctx.custom_roles_for "Audit").find?
      (fun p => p.2 = "Auditors") = some ar)
    (hfc : (ctx.custom_roles_for "Audit").find?
      (fun p => p.2 = "Audit Captains") = some cr)
    (hm : generate_role_people_map ctx audit snap content = some m) :
    ((role_contrib (ctx.custom_roles_for snap.child_type)
        content.access_control_list "Auditors" = [] ∧
      (audit.access_control_list.filter
          (fun p => p.ac_role_id = ar.1)).map (fun p => p.person.id) = [] →
      m "Auditors" = m "Audit Lead") ∧
    (role_contrib (ctx.custom_roles_for snap.child_type)
        content.access_control_list "Auditors" ++
      (audit.access_control_list.filter
          (fun p => p.ac_role_id = ar.1)).map (fun p => p.person.id) ≠ [] →
      m "Auditors" =
        some (role_contrib (ctx.custom_roles_for snap.child_type)
            content.access_control_list "Auditors" ++
          (audit.access_control_list.filter
              (fun p => p.ac_role_id = ar.1)).map
            (fun p => p.person.id)))) := by
  simp only [generate_role_people_map] at hm
  rw [hfa, hfc] at hm
  dsimp only at hm
  replace hm := (Option.some.inj hm).symm
  set snapA := role_contrib (ctx.custom_roles_for snap.child_type)
    content.access_control_list "Auditors" with hsnapdef
  set caps := (audit.access_control_list.filter
      (fun p => p.ac_role_id = cr.1)).map (fun p => p.person.id)
    with hcapsdef
  set auds := (audit.access_control_list.filter
      (fun p => p.ac_role_id = ar.1)).map (fun p => p.person.id)
    with haudsdef
  set m1 := content.access_control_list.foldl
    (role_people_step (ctx.custom_roles_for snap.child_type))
    (fun _ => none) with hm1
  set m3 := role_map_append (role_map_append m1 "Audit Lead" caps)
    "Auditors" auds with hm3def
  have h1A : (m1 "Auditors").getD [] = snapA := by
    rw [hm1, role_fold_eval, ← hsnapdef]
    split
    · next hc => simp [hc]
    · simp
  have h3A : m3 "Auditors" = some (snapA ++ auds) := by
    rw [hm3def, role_map_append_same,
      role_map_append_other _ _ _ _ (by decide), h1A]
  have h3L : m3 "Audit Lead" =
      some ((m1 "Audit Lead").getD [] ++ caps) := by
    rw [hm3def, role_map_append_other _ _ _ _ (by decide),
      role_map_append_same]
  constructor
  · rintro ⟨hs, ha2⟩
    have hcond : (m3 "Auditors").getD [] = [] := by
      rw [h3A, hs, ha2]; rfl
    rw [hm, if_pos hcond, role_map_append_same,
      role_map_append_other _ _ _ _ (by decide), hcond, h3L]
    simp
  · intro hne
    have hcond : ¬ (m3 "Auditors").getD [] = [] := by
      rw [h3A]
      simpa using hne
    rw [hm, if_neg hcond, h3A]

/-- Witness for C10 on the `c10_audit` fixture: an audit with a captain and
no auditors, and a snapshot contributing no auditors. -/
theorem auditors_fallback_witness :
    generate_role_people_map ctx_w c10_audit snap_w content_w =
      some c10_map ∧
    c10_map "Auditors" = c10_map "Audit Lead" :=
  ⟨rfl,
   (auditors_fallback_to_audit_lead ctx_w c10_audit snap_w content_w
       c10_map (1, "Auditors") (2, "Audit Captains") rfl rfl rfl).1
     ⟨rfl, rfl⟩⟩

end Hooks

namespace ImportHelper

/-- C9: `get_column_order` returns the attributes listed in `COLUMN_ORDER`
first (in `COLUMN_ORDER`'s order, without duplicates), then the remaining
attributes whose lowercase form does not start with `"map:"` sorted
case-insensitively, then the attributes whose lowercase form starts with
`"map:"` sorted case-insensitively; every element of the input appears in
the output. -/
theorem get_column_order_spec (column_order attr_list : List String)
    (hnd : column_order.Nodup) :
    get_column_order column_order attr_list =
      column_order.filter (fun v => decide (v ∈ attr_list)) ++
        List.insertionSort lower_le (attr_list.filter
          (fun v => decide (v ∉ column_order) && !starts_with_map v)) ++
        List.insertionSort lower_le (attr_list.filter
          (fun v => decide (v ∉ column_order) && starts_with_map v)) ∧
    (column_order.filter (fun v => decide (v ∈ attr_list))).Nodup ∧
    List.Sorted lower_le (List.insertionSort lower_le (attr_list.filter
      (fun v => decide (v ∉ column_order) && !starts_with_map v))) ∧
    List.Sorted lower_le (List.insertionSort lower_le (attr_list.filter
      (fun v => decide (v ∉ column_order) && starts_with_map v))) ∧
    (List.insertionSort lower_le (attr_list.filter
        (fun v => decide (v ∉ column_order) && !starts_with_map v))).Perm
      (attr_list.filter
        (fun v => decide (v ∉ column_order) && !starts_with_map v)) ∧
    (List.insertionSort lower_le (attr_list.filter
        (fun v => decide (v ∉ column_order) && starts_with_map v))).Perm
      (attr_list.filter
        (fun v => decide (v ∉ column_order) && starts_with_map v)) ∧
    ∀ v ∈ attr_list, v ∈ get_column_order column_order attr_list := by
  have hother : attr_list.filter (fun v =>
      decide (v ∉ column_order.filter (fun v => decide (v ∈ attr_list)))) =
      attr_list.filter (fun v => decide (v ∉ column_order)) := by
    apply List.filter_congr
    intro v hv
    simp [decide_eq_decide, List.mem_filter, hv]
  have hmain : get_column_order column_order attr_list =
      column_order.filter (fun v => decide (v ∈ attr_list)) ++
        List.insertionSort lower_le (attr_list.filter
          (fun v => decide (v ∉ column_order) && !starts_with_map v)) ++
        List.insertionSort lower_le (attr_list.filter
          (fun v => decide (v ∉ column_order) && starts_with_map v)) := by
    unfold get_column_order
    dsimp only
    rw [hother, List.filter_filter, List.filter_filter]
    simp only [Bool.and_comm]
  have hmem : ∀ v ∈ attr_list,
      v ∈ get_column_order column_order attr_list := by
    intro v hv
    rw [hmain]
    simp only [List.mem_append]
    by_cases hco : v ∈ column_order
    · exact Or.inl (Or.inl (List.mem_filter.mpr ⟨hco, by simpa using hv⟩))
    · by_cases hsw : starts_with_map v
      · refine Or.inr ?_
        rw [(List.perm_insertionSort _ _).mem_iff]
        exact List.mem_filter.mpr ⟨hv, by simp [hco, hsw]⟩
      · refine Or.inl (Or.inr ?_)
        rw [(List.perm_insertionSort _ _).mem_iff]
        exact List.mem_filter.mpr ⟨hv, by simp [hco, hsw]⟩
  exact ⟨hmain, hnd.filter _,
    List.sorted_insertionSort lower_le _,
    List.sorted_insertionSort lower_le _,
    List.perm_insertionSort lower_le _,
    List.perm_insertionSort lower_le _,
    hmem⟩

/-- Witness for C9 on the concrete `co_w`/`attrs_w` attribute lists. -/
theorem get_column_order_witness :
    co_w.Nodup ∧
    get_column_order co_w attrs_w =
      co_w.filter (fun v => decide (v ∈ attrs_w)) ++
        List.insertionSort lower_le (attrs_w.filter
          (fun v => decide (v ∉ co_w) && !starts_with_map v)) ++
        List.insertionSort lower_le (attrs_w.filter
          (fun v => decide (v ∉ co_w) && starts_with_map v)) :=
  ⟨by decide, (get_column_order_spec co_w attrs_w (by decide)).1⟩

end ImportHelper
